import Mathlib

/-!
# Verification of the cc-vol signup eligibility engine

Shallow embedding of the signup rule engine of the `cc-vol` volunteer
shift-scheduling application: the phase classifier and pure rule predicates
(`app/rules/pure.py`), the counting queries (`app/rules/queries.py`), the
validation orchestrator (`app/rules/validator.py`) and the signup CRUD
operations (`app/models/signup.py`).

Dates are embedded as proleptic-Gregorian calendar dates with Python's
`date.toordinal` day numbering, so that date subtraction and `weekday()`
agree exactly with the Python `datetime` library used by the source.
The database is embedded as explicit row lists; each SQL query of
`queries.py` becomes a pure count over those lists with the same filters.
-/

namespace CcVol

/-! ## Calendar dates (Python `datetime.date` semantics) -/

/-- A calendar date, proleptic Gregorian, year ≥ 1 as in Python `datetime.date`. -/
structure Date where
  year : Nat
  month : Nat
  day : Nat
deriving DecidableEq, Repr

/-- Gregorian leap-year test, as in Python `calendar.isleap`. -/
def isLeap (y : Nat) : Bool :=
  (y % 4 == 0 && y % 100 != 0) || (y % 400 == 0)

/-- Number of days in month `m` of year `y`. -/
def daysInMonth (y m : Nat) : Nat :=
  if m = 2 then (if isLeap y then 29 else 28)
  else if m = 4 ∨ m = 6 ∨ m = 9 ∨ m = 11 then 30
  else 31

/-- Days in year `y` strictly before the first of month `m`. -/
def daysBeforeMonth (y m : Nat) : Nat :=
  ((List.range (m - 1)).map (fun i => daysInMonth y (i + 1))).sum

/-- Python `date.toordinal`: day number in the proleptic Gregorian calendar,
with `0001-01-01` having ordinal 1. -/
def Date.toordinal (d : Date) : Nat :=
  365 * (d.year - 1) + (d.year - 1) / 4 - (d.year - 1) / 100 + (d.year - 1) / 400
    + daysBeforeMonth d.year d.month + d.day

/-- Python `(d2 - d1).days`: whole-day difference between two dates. -/
def dateDiff (d2 d1 : Date) : Int :=
  (d2.toordinal : Int) - (d1.toordinal : Int)

/-- Python `date.weekday()`: Monday = 0 … Sunday = 6 (ordinal 1 is a Monday). -/
def Date.weekday (d : Date) : Nat :=
  (d.toordinal - 1) % 7

/-- SQLite `strftime('%w', date)`: Sunday = 0 … Saturday = 6, as a digit. -/
def sqliteDayOfWeek (d : Date) : Nat :=
  d.toordinal % 7

/-- Python `shift_date.replace(day=1)`: first day of the shift's month. -/
def Date.monthStart (d : Date) : Date :=
  { d with day := 1 }

/-! ## `app/rules/pure.py`: types, phase classifier, rule predicates -/

/-- `RuleResult = namedtuple("RuleResult", ["allowed", "reason"])`. -/
structure RuleResult where
  allowed : Bool
  reason : String
deriving DecidableEq, Repr

/-- `class SignupPhase(Enum)` from `app/rules/pure.py`. -/
inductive SignupPhase where
  | BLOCKED
  | PHASE_1
  | PHASE_2
  | MID_MONTH
deriving DecidableEq, Repr

/-- `get_signup_phase(today, shift_month_start)` from `app/rules/pure.py`:
classifies by `days_before = (shift_month_start - today).days`. -/
def get_signup_phase (today shift_month_start : Date) : SignupPhase :=
  let days_before : Int := dateDiff shift_month_start today
  if days_before ≥ 14 then .BLOCKED
  else if days_before ≥ 7 then .PHASE_1
  else if days_before > 0 then .PHASE_2
  else .MID_MONTH

/-- `check_kakad_limit(kakad_count, max=2)` from `app/rules/pure.py`. -/
def check_kakad_limit (kakad_count : Int) (max : Int := 2) : RuleResult :=
  if kakad_count ≥ max then
    ⟨false, "Kakad limit reached (" ++ toString kakad_count ++ "/" ++ toString max ++ ")"⟩
  else ⟨true, ""⟩

/-- `check_robe_limit(robe_count, max=4)` from `app/rules/pure.py`. -/
def check_robe_limit (robe_count : Int) (max : Int := 4) : RuleResult :=
  if robe_count ≥ max then
    ⟨false, "Robe limit reached (" ++ toString robe_count ++ "/" ++ toString max ++ ")"⟩
  else ⟨true, ""⟩

/-- `check_thursday_limit(thursday_count, max=1)` from `app/rules/pure.py`. -/
def check_thursday_limit (thursday_count : Int) (max : Int := 1) : RuleResult :=
  if thursday_count ≥ max then
    ⟨false, "Thursday limit reached (" ++ toString thursday_count ++ "/" ++ toString max ++ ")"⟩
  else ⟨true, ""⟩

/-- `check_phase1_total(total_count, max=6)` from `app/rules/pure.py`. -/
def check_phase1_total (total_count : Int) (max : Int := 6) : RuleResult :=
  if total_count ≥ max then
    ⟨false, "Phase 1 total limit reached (" ++ toString total_count ++ "/" ++ toString max ++ ")"⟩
  else ⟨true, ""⟩

/-- `check_running_total(total_count, max=8)` from `app/rules/pure.py`. -/
def check_running_total (total_count : Int) (max : Int := 8) : RuleResult :=
  if total_count ≥ max then
    ⟨false, "Running total limit reached (" ++ toString total_count ++ "/" ++ toString max ++ ")"⟩
  else ⟨true, ""⟩

/-- Modelled from the spec: `check_phase2_additional` is imported by
`app/rules/validator.py` and `tests/test_rules_pure.py` from
`app.rules.pure`, but no definition of it exists anywhere under the
repository's source; the spec gives the rule "Phase-2 additional — count of
active signups created during the Phase-2 window — default limit 2", with
`allowed=false` iff `observed_count >= limit` and a reason naming the limit
(the repository's own test asserts the reason contains
"Phase 2 additional limit"). -/
def check_phase2_additional (phase2_count : Int) (max : Int := 2) : RuleResult :=
  if phase2_count ≥ max then
    ⟨false, "Phase 2 additional limit reached (" ++ toString phase2_count ++ "/" ++ toString max ++ ")"⟩
  else ⟨true, ""⟩

/-- `check_capacity(current_signups, capacity)` from `app/rules/pure.py`. -/
def check_capacity (current_signups : Int) (capacity : Int) : RuleResult :=
  if current_signups ≥ capacity then
    ⟨false, "Shift is full (" ++ toString current_signups ++ "/" ++ toString capacity ++ ")"⟩
  else ⟨true, ""⟩

/-- Tags for the pure rule functions, used to embed the Python lists of
function objects returned by `get_applicable_rules` (function identity in
Python becomes tag equality here). -/
inductive Rule where
  | kakadLimit
  | robeLimit
  | thursdayLimit
  | phase1Total
  | phase2Additional
  | runningTotal
deriving DecidableEq, Repr

/-- `get_applicable_rules(phase)` from `app/rules/pure.py`: the list of rule
functions applicable to the given phase (capacity is always checked
separately and not included). -/
def get_applicable_rules (phase : SignupPhase) : List Rule :=
  if phase = .PHASE_1 then
    [.kakadLimit, .robeLimit, .thursdayLimit, .phase1Total]
  else if phase = .PHASE_2 then
    [.runningTotal]
  else []

/-! ## Database rows (schema of `app/db.py::create_tables`) -/

/-- A row of the `volunteers` table; only the columns the rule engine reads
(`id`, `status`) are carried. `status` is constrained by the schema to
`pending | approved | rejected`. -/
structure VolunteerRow where
  id : Nat
  status : String
deriving DecidableEq, Repr

/-- A row of the `shifts` table: `id`, `date`, `shift_type`
(`kakad | robe`), `capacity`. -/
structure ShiftRow where
  id : Nat
  date : Date
  shift_type : String
  capacity : Int
deriving DecidableEq, Repr

/-- A row of the `signups` table: `id`, `volunteer_id`, `shift_id`,
`signed_up_at` (a timestamp; queries compare only its calendar-date part,
so it is carried as a `Date`), `dropped_at` (NULL = active). -/
structure SignupRow where
  id : Nat
  volunteer_id : Nat
  shift_id : Nat
  signed_up_at : Date
  dropped_at : Option Date
deriving DecidableEq, Repr

/-- The database state visible to the rule engine: the three row lists. -/
structure DBState where
  volunteers : List VolunteerRow
  shifts : List ShiftRow
  signups : List SignupRow
deriving DecidableEq, Repr

/-- `SELECT * FROM volunteers WHERE id = ?` (primary-key lookup). -/
def findVolunteer (db : DBState) (volunteer_id : Nat) : Option VolunteerRow :=
  db.volunteers.find? (fun v => v.id == volunteer_id)

/-- `SELECT ... FROM shifts WHERE id = ?` (primary-key lookup). -/
def findShift (db : DBState) (shift_id : Nat) : Option ShiftRow :=
  db.shifts.find? (fun s => s.id == shift_id)

/-! ## `app/rules/queries.py`: counting queries

Each SQL count becomes a `countP` over the signup rows with the same
filters. The `JOIN shifts sh ON s.shift_id = sh.id` drops rows whose
`shift_id` resolves to no shift; `sh.date LIKE 'YYYY-MM-%'` is a
year-month match on the ISO date string. -/

/-- Does the signup's joined shift land in month (`year`, `month`) and
satisfy `p`?  (the JOIN + `date LIKE` filter common to the queries). -/
def joinedShiftMatches (db : DBState) (s : SignupRow) (year month : Nat)
    (p : ShiftRow → Bool) : Bool :=
  match findShift db s.shift_id with
  | some sh => sh.date.year == year && sh.date.month == month && p sh
  | none => false

/-- `get_kakad_count`: active kakad signups for a volunteer in a month. -/
def get_kakad_count (db : DBState) (volunteer_id year month : Nat) : Int :=
  (db.signups.countP (fun s =>
    s.volunteer_id == volunteer_id && s.dropped_at == none &&
      joinedShiftMatches db s year month (fun sh => sh.shift_type == "kakad")) : Nat)

/-- `get_robe_count`: active robe signups for a volunteer in a month. -/
def get_robe_count (db : DBState) (volunteer_id year month : Nat) : Int :=
  (db.signups.countP (fun s =>
    s.volunteer_id == volunteer_id && s.dropped_at == none &&
      joinedShiftMatches db s year month (fun sh => sh.shift_type == "robe")) : Nat)

/-- `get_total_count`: all active signups for a volunteer in a month. -/
def get_total_count (db : DBState) (volunteer_id year month : Nat) : Int :=
  (db.signups.countP (fun s =>
    s.volunteer_id == volunteer_id && s.dropped_at == none &&
      joinedShiftMatches db s year month (fun _ => true)) : Nat)

/-- `get_thursday_count`: active signups in the month whose shift date is a
Thursday (`strftime('%w', sh.date) = '4'`, Sunday = 0). -/
def get_thursday_count (db : DBState) (volunteer_id year month : Nat) : Int :=
  (db.signups.countP (fun s =>
    s.volunteer_id == volunteer_id && s.dropped_at == none &&
      joinedShiftMatches db s year month (fun sh => sqliteDayOfWeek sh.date == 4)) : Nat)

/-- `get_phase2_count`: active signups in the month whose creation date falls
in `[month_start - 13 days, month_start - 7 days]` inclusive. -/
def get_phase2_count (db : DBState) (volunteer_id year month : Nat) : Int :=
  let month_start : Date := ⟨year, month, 1⟩
  let lo : Int := (month_start.toordinal : Int) - 13
  let hi : Int := (month_start.toordinal : Int) - 7
  (db.signups.countP (fun s =>
    s.volunteer_id == volunteer_id && s.dropped_at == none &&
      joinedShiftMatches db s year month (fun _ => true) &&
      decide (lo ≤ (s.signed_up_at.toordinal : Int)) &&
      decide ((s.signed_up_at.toordinal : Int) ≤ hi)) : Nat)

/-- `get_shift_signup_count`: active signups on a specific shift (no join). -/
def get_shift_signup_count (db : DBState) (shift_id : Nat) : Int :=
  (db.signups.countP (fun s =>
    s.shift_id == shift_id && s.dropped_at == none) : Nat)

/-! ## `app/rules/validator.py`: the validation orchestrator

`_get_shift_details` raises `ValueError` for a missing shift; that is
embedded as `Except.error`. `today` is the explicit clock parameter
(the Python default `today or date.today()` is the caller's clock). -/

/-- `validate_signup(db, volunteer_id, shift_id, today)` from
`app/rules/validator.py`. Returns `.error` exactly where the Python raises
`ValueError`, and `.ok violations` otherwise. -/
def validate_signup (db : DBState) (volunteer_id shift_id : Nat)
    (today : Date) : Except String (List RuleResult) :=
  match findVolunteer db volunteer_id with
  | none => .ok [⟨false, "Volunteer is not approved to sign up"⟩]
  | some volunteer =>
    if volunteer.status ≠ "approved" then
      .ok [⟨false, "Volunteer is not approved to sign up"⟩]
    else
      match findShift db shift_id with
      | none => .error ("Shift " ++ toString shift_id ++ " not found")
      | some shift =>
        let shift_date := shift.date
        let month_start := shift_date.monthStart
        let year := month_start.year
        let month := month_start.month
        let phase := get_signup_phase today month_start
        let cap_result := check_capacity (get_shift_signup_count db shift_id) shift.capacity
        let violations := if cap_result.allowed then [] else [cap_result]
        if phase = .MID_MONTH then .ok violations
        else
          let phase1_violations :=
            if phase = .PHASE_1 then
              let r_total := check_phase1_total (get_total_count db volunteer_id year month)
              let l_total := if r_total.allowed then [] else [r_total]
              let l_kakad :=
                if shift.shift_type = "kakad" then
                  let r := check_kakad_limit (get_kakad_count db volunteer_id year month)
                  if r.allowed then [] else [r]
                else []
              let l_robe :=
                if shift.shift_type = "robe" then
                  let r := check_robe_limit (get_robe_count db volunteer_id year month)
                  if r.allowed then [] else [r]
                else []
              let l_thu :=
                if shift_date.weekday = 3 then
                  let r := check_thursday_limit (get_thursday_count db volunteer_id year month)
                  if r.allowed then [] else [r]
                else []
              l_total ++ l_kakad ++ l_robe ++ l_thu
            else []
          let phase2_violations :=
            if phase = .PHASE_2 then
              let r_p2 := check_phase2_additional (get_phase2_count db volunteer_id year month)
              let l_p2 := if r_p2.allowed then [] else [r_p2]
              let r_run := check_running_total (get_total_count db volunteer_id year month)
              let l_run := if r_run.allowed then [] else [r_run]
              l_p2 ++ l_run
            else []
          .ok (violations ++ phase1_violations ++ phase2_violations)

/-! ## `app/models/signup.py`: signup CRUD

`CURRENT_TIMESTAMP` is passed explicitly as `now`. `lastrowid` of the
AUTOINCREMENT insert is embedded as one more than the largest existing id. -/

/-- `SignupCreate` request body: the (volunteer, shift) pair to sign up. -/
structure SignupCreate where
  volunteer_id : Nat
  shift_id : Nat
deriving DecidableEq, Repr

/-- Fresh AUTOINCREMENT id: strictly greater than every existing id. -/
def freshSignupId (signups : List SignupRow) : Nat :=
  (signups.map SignupRow.id).foldr Nat.max 0 + 1

/-- `create_signup(db, data)` from `app/models/signup.py`: returns the
updated signup table together with the returned `Signup` row.
If a row for the pair exists and is dropped, it is reactivated in place
(`dropped_at = NULL`, `signed_up_at = CURRENT_TIMESTAMP`); if it exists and
is active, it is returned unchanged; otherwise a new row is inserted. -/
def create_signup (db : DBState) (data : SignupCreate) (now : Date) :
    DBState × SignupRow :=
  match db.signups.find? (fun r =>
      r.volunteer_id == data.volunteer_id && r.shift_id == data.shift_id) with
  | some existing =>
    if existing.dropped_at ≠ none then
      let reactivated := { existing with dropped_at := none, signed_up_at := now }
      ({ db with signups := db.signups.map (fun r =>
          if r.id == existing.id then { r with dropped_at := none, signed_up_at := now }
          else r) },
       reactivated)
    else (db, existing)
  | none =>
    let newRow : SignupRow :=
      { id := freshSignupId db.signups
        volunteer_id := data.volunteer_id
        shift_id := data.shift_id
        signed_up_at := now
        dropped_at := none }
    ({ db with signups := db.signups ++ [newRow] }, newRow)

/-- `drop_signup(db, signup_id)` from `app/models/signup.py`: sets
`dropped_at = CURRENT_TIMESTAMP` on the row with that id and returns it
(`none` when no such row exists). Never inserts or deletes rows. -/
def drop_signup (db : DBState) (signup_id : Nat) (now : Date) :
    DBState × Option SignupRow :=
  let db' := { db with signups := db.signups.map (fun r =>
      if r.id == signup_id then { r with dropped_at := some now } else r) }
  (db', db'.signups.find? (fun r => r.id == signup_id))

/-- At most one row per (volunteer, shift) pair — the schema's
`UNIQUE(volunteer_id, shift_id)` constraint on `signups`. -/
def uniquePairs (signups : List SignupRow) : Prop :=
  signups.Pairwise (fun a b =>
    ¬(a.volunteer_id = b.volunteer_id ∧ a.shift_id = b.shift_id))

instance (signups : List SignupRow) : Decidable (uniquePairs signups) :=
  List.instDecidablePairwise signups

/-! ## Concrete database states used by the claim theorems and witnesses -/

/-- Database state witnessing the BLOCKED-phase behaviour of
`validate_signup`: one approved volunteer and one shift
(2026-03-10, kakad, capacity 1) with no signups. -/
def blockedPhaseDB : DBState :=
  { volunteers := [⟨1, "approved"⟩]
    shifts := [⟨1, ⟨2026, 3, 10⟩, "kakad", 1⟩]
    signups := [] }

/-- Database state in PHASE_2 with the Phase-2-window count and the running
total both at their limits: volunteer 1 has 6 active March signups created
during the Phase-1 window (2026-02-14) and 2 created during the Phase-2
window (2026-02-22); the candidate shift 9 (2026-03-13, robe) has room. -/
def phase2LimitsDB : DBState :=
  { volunteers := [⟨1, "approved"⟩]
    shifts := [⟨1, ⟨2026, 3, 2⟩, "kakad", 10⟩, ⟨2, ⟨2026, 3, 3⟩, "kakad", 10⟩,
               ⟨3, ⟨2026, 3, 4⟩, "robe", 10⟩, ⟨4, ⟨2026, 3, 6⟩, "robe", 10⟩,
               ⟨5, ⟨2026, 3, 7⟩, "robe", 10⟩, ⟨6, ⟨2026, 3, 9⟩, "robe", 10⟩,
               ⟨7, ⟨2026, 3, 10⟩, "robe", 10⟩, ⟨8, ⟨2026, 3, 11⟩, "robe", 10⟩,
               ⟨9, ⟨2026, 3, 13⟩, "robe", 10⟩]
    signups := [⟨1, 1, 1, ⟨2026, 2, 14⟩, none⟩, ⟨2, 1, 2, ⟨2026, 2, 14⟩, none⟩,
                ⟨3, 1, 3, ⟨2026, 2, 14⟩, none⟩, ⟨4, 1, 4, ⟨2026, 2, 14⟩, none⟩,
                ⟨5, 1, 5, ⟨2026, 2, 14⟩, none⟩, ⟨6, 1, 6, ⟨2026, 2, 14⟩, none⟩,
                ⟨7, 1, 7, ⟨2026, 2, 22⟩, none⟩, ⟨8, 1, 8, ⟨2026, 2, 22⟩, none⟩] }

/-- Database with a single pending volunteer and a roomy shift with no
signups, exercising the approval gate. -/
def pendingVolDB : DBState :=
  { volunteers := [⟨1, "pending"⟩]
    shifts := [⟨1, ⟨2026, 3, 2⟩, "kakad", 10⟩]
    signups := [] }

/-- The "append the result if it failed" step of the orchestrator:
`if not r.allowed: violations.append(r)`. -/
def denialGuard (r : RuleResult) : List RuleResult :=
  if r.allowed then [] else [r]

/-- PHASE_1 database for the violation-order claim: volunteer 1 (approved)
has 2 active kakad and 4 active robe signups in March 2026; volunteer 2 is
pending; the candidate shift 7 (2026-03-11, a Wednesday, kakad,
capacity 10) has room, so both the kakad limit and the Phase-1 total are
hit but capacity is not. -/
def phase1OrderDB : DBState :=
  { volunteers := [⟨1, "approved"⟩, ⟨2, "pending"⟩]
    shifts := [⟨1, ⟨2026, 3, 2⟩, "kakad", 10⟩, ⟨2, ⟨2026, 3, 3⟩, "kakad", 10⟩,
               ⟨3, ⟨2026, 3, 4⟩, "robe", 10⟩, ⟨4, ⟨2026, 3, 6⟩, "robe", 10⟩,
               ⟨5, ⟨2026, 3, 7⟩, "robe", 10⟩, ⟨6, ⟨2026, 3, 9⟩, "robe", 10⟩,
               ⟨7, ⟨2026, 3, 11⟩, "kakad", 10⟩]
    signups := [⟨1, 1, 1, ⟨2026, 2, 10⟩, none⟩, ⟨2, 1, 2, ⟨2026, 2, 10⟩, none⟩,
                ⟨3, 1, 3, ⟨2026, 2, 10⟩, none⟩, ⟨4, 1, 4, ⟨2026, 2, 10⟩, none⟩,
                ⟨5, 1, 5, ⟨2026, 2, 10⟩, none⟩, ⟨6, 1, 6, ⟨2026, 2, 10⟩, none⟩] }

/-- Database for the C8 witness: one approved volunteer, one existing shift
(id 1); shift 99 does not exist. -/
def shiftLookupDB : DBState :=
  { volunteers := [⟨1, "approved"⟩]
    shifts := [⟨1, ⟨2026, 3, 2⟩, "kakad", 1⟩]
    signups := [] }

/-- Signup table for exercising the create/drop invariant: the pair (1, 1)
has a dropped row, the pair (1, 2) an active one. -/
def rejoinDB : DBState :=
  { volunteers := [⟨1, "approved"⟩]
    shifts := [⟨1, ⟨2026, 3, 2⟩, "kakad", 1⟩, ⟨2, ⟨2026, 3, 3⟩, "robe", 1⟩]
    signups := [⟨1, 1, 1, ⟨2026, 2, 10⟩, some ⟨2026, 2, 12⟩⟩,
                ⟨2, 1, 2, ⟨2026, 2, 11⟩, none⟩] }

/-- Database for the C10 witness: a rejected volunteer. -/
def rejectedVolDB : DBState :=
  { volunteers := [⟨1, "rejected"⟩]
    shifts := [⟨1, ⟨2026, 3, 2⟩, "kakad", 10⟩]
    signups := [] }

/-! ## Helper lemmas -/

theorem String.append_ne_empty_left (p q : String) (hp : p ≠ "") : p ++ q ≠ "" := by
  intro h
  apply hp
  have hd : p.data ++ q.data = ([] : List Char) := by
    have := congrArg String.data h
    simpa [String.append] using this
  have : p.data = [] := (List.append_eq_nil.mp hd).1
  cases p
  simp_all

/-- A reason of the shape `lit ++ a ++ mid ++ b ++ fin` (the f-string
template of every failing rule) is non-empty when the literal prefix is. -/
theorem reason_template_ne_empty (lit a mid b fin : String) (h : lit ≠ "") :
    lit ++ a ++ mid ++ b ++ fin ≠ "" := by
  apply String.append_ne_empty_left
  apply String.append_ne_empty_left
  apply String.append_ne_empty_left
  exact String.append_ne_empty_left _ _ h

/-- Members of a denial guard `if r.allowed then [] else [r]` are exactly
the failing result. -/
theorem mem_denial_guard {r x : RuleResult}
    (h : r ∈ (if x.allowed then ([] : List RuleResult) else [x])) :
    r = x ∧ x.allowed = false := by
  by_cases hx : x.allowed <;> simp [hx] at h
  simp_all

theorem check_kakad_limit_denies_iff (c m : Int) :
    ((check_kakad_limit c m).allowed = false ↔ m ≤ c) ∧
      ((check_kakad_limit c m).reason ≠ "" ↔ m ≤ c) := by
  unfold check_kakad_limit
  by_cases h : c ≥ m <;>
    simp [h, reason_template_ne_empty _ _ _ _ _ (by decide : ("Kakad limit reached (" : String) ≠ "")]

theorem check_robe_limit_denies_iff (c m : Int) :
    ((check_robe_limit c m).allowed = false ↔ m ≤ c) ∧
      ((check_robe_limit c m).reason ≠ "" ↔ m ≤ c) := by
  unfold check_robe_limit
  by_cases h : c ≥ m <;>
    simp [h, reason_template_ne_empty _ _ _ _ _ (by decide : ("Robe limit reached (" : String) ≠ "")]

theorem check_thursday_limit_denies_iff (c m : Int) :
    ((check_thursday_limit c m).allowed = false ↔ m ≤ c) ∧
      ((check_thursday_limit c m).reason ≠ "" ↔ m ≤ c) := by
  unfold check_thursday_limit
  by_cases h : c ≥ m <;>
    simp [h, reason_template_ne_empty _ _ _ _ _ (by decide : ("Thursday limit reached (" : String) ≠ "")]

theorem check_phase1_total_denies_iff (c m : Int) :
    ((check_phase1_total c m).allowed = false ↔ m ≤ c) ∧
      ((check_phase1_total c m).reason ≠ "" ↔ m ≤ c) := by
  unfold check_phase1_total
  by_cases h : c ≥ m <;>
    simp [h, reason_template_ne_empty _ _ _ _ _ (by decide : ("Phase 1 total limit reached (" : String) ≠ "")]

theorem check_running_total_denies_iff (c m : Int) :
    ((check_running_total c m).allowed = false ↔ m ≤ c) ∧
      ((check_running_total c m).reason ≠ "" ↔ m ≤ c) := by
  unfold check_running_total
  by_cases h : c ≥ m <;>
    simp [h, reason_template_ne_empty _ _ _ _ _ (by decide : ("Running total limit reached (" : String) ≠ "")]

theorem check_phase2_additional_denies_iff (c m : Int) :
    ((check_phase2_additional c m).allowed = false ↔ m ≤ c) ∧
      ((check_phase2_additional c m).reason ≠ "" ↔ m ≤ c) := by
  unfold check_phase2_additional
  by_cases h : c ≥ m <;>
    simp [h, reason_template_ne_empty _ _ _ _ _ (by decide : ("Phase 2 additional limit reached (" : String) ≠ "")]

theorem check_capacity_denies_iff (c k : Int) :
    ((check_capacity c k).allowed = false ↔ k ≤ c) ∧
      ((check_capacity c k).reason ≠ "" ↔ k ≤ c) := by
  unfold check_capacity
  by_cases h : c ≥ k <;>
    simp [h, reason_template_ne_empty _ _ _ _ _ (by decide : ("Shift is full (" : String) ≠ "")]

/-! ## Claim theorems -/

/-- C1: the claim says that in the BLOCKED phase (14+ days before the
shift's month start) `validate_signup` evaluates no rule — not even
capacity — and always returns a single "not open yet" violation, so the
returned list is never empty in BLOCKED. The code has no BLOCKED branch at
all: with an approved volunteer, an existing shift with free capacity, and
`today` 19 days before the month start (phase BLOCKED), `validate_signup`
returns the empty violation list, i.e. the signup is allowed. -/
theorem C1_blocked_signup_allowed :
    get_signup_phase ⟨2026, 2, 10⟩ ((⟨2026, 3, 10⟩ : Date).monthStart) = .BLOCKED ∧
    validate_signup blockedPhaseDB 1 1 ⟨2026, 2, 10⟩ = .ok [] := by
  constructor <;> rfl

/-- C2: the claim says the applicable rule set for PHASE_2 contains both the
Phase-2 additional rule and the running total rule, matching what
`validate_signup` evaluates. In the code `get_applicable_rules(PHASE_2)`
returns only `[check_running_total]` — one rule, without
`check_phase2_additional` — contradicting the repository's own test
(`test_phase2_returns_2_rules` asserts two rules including
`check_phase2_additional`); `validate_signup`'s PHASE_2 branch does
evaluate both rules (with `check_phase2_additional` modelled from the spec,
since no definition of it exists in the source), as the concrete PHASE_2
state at both limits shows. -/
theorem C2_phase2_rule_set_gap :
    get_applicable_rules .PHASE_2 = [Rule.runningTotal] ∧
    (get_applicable_rules .PHASE_2).length = 1 ∧
    Rule.phase2Additional ∉ get_applicable_rules .PHASE_2 ∧
    validate_signup phase2LimitsDB 1 9 ⟨2026, 2, 24⟩ =
      .ok [⟨false, "Phase 2 additional limit reached (2/2)"⟩,
           ⟨false, "Running total limit reached (8/8)"⟩] := by
  refine ⟨rfl, rfl, by decide, by rfl⟩

/-- C3: for every pair of dates, with `days_before` the whole-day difference
`shift_month_start - today`, `get_signup_phase` returns BLOCKED iff
`days_before ≥ 14`, PHASE_1 iff `7 ≤ days_before < 14`, PHASE_2 iff
`0 < days_before < 7`, and MID_MONTH iff `days_before ≤ 0`; it is total by
construction. -/
theorem C3_phase_boundaries (today shift_month_start : Date) :
    (get_signup_phase today shift_month_start = .BLOCKED ↔
      14 ≤ dateDiff shift_month_start today) ∧
    (get_signup_phase today shift_month_start = .PHASE_1 ↔
      7 ≤ dateDiff shift_month_start today ∧ dateDiff shift_month_start today < 14) ∧
    (get_signup_phase today shift_month_start = .PHASE_2 ↔
      0 < dateDiff shift_month_start today ∧ dateDiff shift_month_start today < 7) ∧
    (get_signup_phase today shift_month_start = .MID_MONTH ↔
      dateDiff shift_month_start today ≤ 0) := by
  simp only [get_signup_phase]
  split_ifs with h1 h2 h3 <;>
    refine ⟨?_, ?_, ?_, ?_⟩ <;> simp_all <;> omega

/-- C3 witness: at `today = 2026-02-10`, `shift_month_start = 2026-03-01`
the difference is 19 days and the phase is BLOCKED. -/
theorem C3_phase_boundaries_witness :
    14 ≤ dateDiff ⟨2026, 3, 1⟩ ⟨2026, 2, 10⟩ ∧
    get_signup_phase ⟨2026, 2, 10⟩ ⟨2026, 3, 1⟩ = .BLOCKED :=
  ⟨by decide, ((C3_phase_boundaries ⟨2026, 2, 10⟩ ⟨2026, 3, 1⟩).1).mpr (by decide)⟩

/-- C4 counterexample: the claim (taken from spec §8) says
`get_signup_phase(2026-02-15, 2026-03-01) = PHASE_1` and
`get_signup_phase(2026-02-22, 2026-03-01) = PHASE_2`; the code returns
BLOCKED (14 days before ⇒ `days_before >= 14`) and PHASE_1 (7 days before ⇒
`days_before >= 7`) respectively. -/
theorem C4_boundary_examples_counterexample :
    get_signup_phase ⟨2026, 2, 15⟩ ⟨2026, 3, 1⟩ = .BLOCKED ∧
    get_signup_phase ⟨2026, 2, 15⟩ ⟨2026, 3, 1⟩ ≠ .PHASE_1 ∧
    get_signup_phase ⟨2026, 2, 22⟩ ⟨2026, 3, 1⟩ = .PHASE_1 ∧
    get_signup_phase ⟨2026, 2, 22⟩ ⟨2026, 3, 1⟩ ≠ .PHASE_2 := by
  refine ⟨rfl, by decide, rfl, by decide⟩

/-- C4 amended: for `shift_month_start = 2026-03-01` the code's phases are
2026-02-15 ⇒ BLOCKED, 2026-02-14 ⇒ BLOCKED, 2026-02-22 ⇒ PHASE_1,
2026-02-23 ⇒ PHASE_2, 2026-03-01 ⇒ MID_MONTH. -/
theorem C4_boundary_examples :
    get_signup_phase ⟨2026, 2, 15⟩ ⟨2026, 3, 1⟩ = .BLOCKED ∧
    get_signup_phase ⟨2026, 2, 14⟩ ⟨2026, 3, 1⟩ = .BLOCKED ∧
    get_signup_phase ⟨2026, 2, 22⟩ ⟨2026, 3, 1⟩ = .PHASE_1 ∧
    get_signup_phase ⟨2026, 2, 23⟩ ⟨2026, 3, 1⟩ = .PHASE_2 ∧
    get_signup_phase ⟨2026, 3, 1⟩ ⟨2026, 3, 1⟩ = .MID_MONTH := by
  refine ⟨rfl, rfl, rfl, rfl, rfl⟩

/-- C6: for every database state, shift id and date, if the volunteer row is
absent or its status is not `"approved"`, `validate_signup` returns exactly
one violation, "Volunteer is not approved to sign up", and evaluates nothing
else — the result is that singleton for every shift, including one with free
capacity and no signups. -/
theorem C6_unapproved_single_violation (db : DBState) (vol sid : Nat) (today : Date)
    (h : findVolunteer db vol = none ∨
      ∃ v, findVolunteer db vol = some v ∧ v.status ≠ "approved") :
    validate_signup db vol sid today =
      .ok [⟨false, "Volunteer is not approved to sign up"⟩] := by
  unfold validate_signup
  rcases h with h | ⟨v, hv, hs⟩
  · rw [h]
  · rw [hv]
    simp [hs]

/-- C6 witness: a pending volunteer attempting a signup on a shift with
capacity 10 and zero signups (MID_MONTH date) receives exactly the single
"not approved" violation. -/
theorem C6_unapproved_single_violation_witness :
    (findVolunteer pendingVolDB 1 = none ∨
      ∃ v, findVolunteer pendingVolDB 1 = some v ∧ v.status ≠ "approved") ∧
    validate_signup pendingVolDB 1 1 ⟨2026, 3, 5⟩ =
      .ok [⟨false, "Volunteer is not approved to sign up"⟩] :=
  ⟨Or.inr ⟨⟨1, "pending"⟩, rfl, by decide⟩,
   C6_unapproved_single_violation pendingVolDB 1 1 ⟨2026, 3, 5⟩
     (Or.inr ⟨⟨1, "pending"⟩, rfl, by decide⟩)⟩

/-- C7: every rule predicate denies (`allowed = false`) iff
`observed_count ≥ limit`, its reason is non-empty exactly when it denies,
and the failing reason names the limit that was hit — at the default limits:
"Kakad limit reached (2/2)", "Robe limit reached (4/4)",
"Thursday limit reached (1/1)", "Phase 1 total limit reached (6/6)",
"Running total limit reached (8/8)", "Shift is full (3/3)". -/
theorem C7_rule_predicates :
    (∀ c m : Int,
      ((check_kakad_limit c m).allowed = false ↔ m ≤ c) ∧
      ((check_kakad_limit c m).reason ≠ "" ↔ (check_kakad_limit c m).allowed = false) ∧
      ((check_robe_limit c m).allowed = false ↔ m ≤ c) ∧
      ((check_robe_limit c m).reason ≠ "" ↔ (check_robe_limit c m).allowed = false) ∧
      ((check_thursday_limit c m).allowed = false ↔ m ≤ c) ∧
      ((check_thursday_limit c m).reason ≠ "" ↔ (check_thursday_limit c m).allowed = false) ∧
      ((check_phase1_total c m).allowed = false ↔ m ≤ c) ∧
      ((check_phase1_total c m).reason ≠ "" ↔ (check_phase1_total c m).allowed = false) ∧
      ((check_running_total c m).allowed = false ↔ m ≤ c) ∧
      ((check_running_total c m).reason ≠ "" ↔ (check_running_total c m).allowed = false) ∧
      ((check_capacity c m).allowed = false ↔ m ≤ c) ∧
      ((check_capacity c m).reason ≠ "" ↔ (check_capacity c m).allowed = false)) ∧
    check_kakad_limit 2 = ⟨false, "Kakad limit reached (2/2)"⟩ ∧
    check_robe_limit 4 = ⟨false, "Robe limit reached (4/4)"⟩ ∧
    check_thursday_limit 1 = ⟨false, "Thursday limit reached (1/1)"⟩ ∧
    check_phase1_total 6 = ⟨false, "Phase 1 total limit reached (6/6)"⟩ ∧
    check_running_total 8 = ⟨false, "Running total limit reached (8/8)"⟩ ∧
    check_capacity 3 3 = ⟨false, "Shift is full (3/3)"⟩ := by
  refine ⟨fun c m => ?_, by decide, by decide, by decide, by decide, by decide, by decide⟩
  refine ⟨(check_kakad_limit_denies_iff c m).1,
    (check_kakad_limit_denies_iff c m).2.trans (check_kakad_limit_denies_iff c m).1.symm,
    (check_robe_limit_denies_iff c m).1,
    (check_robe_limit_denies_iff c m).2.trans (check_robe_limit_denies_iff c m).1.symm,
    (check_thursday_limit_denies_iff c m).1,
    (check_thursday_limit_denies_iff c m).2.trans (check_thursday_limit_denies_iff c m).1.symm,
    (check_phase1_total_denies_iff c m).1,
    (check_phase1_total_denies_iff c m).2.trans (check_phase1_total_denies_iff c m).1.symm,
    (check_running_total_denies_iff c m).1,
    (check_running_total_denies_iff c m).2.trans (check_running_total_denies_iff c m).1.symm,
    (check_capacity_denies_iff c m).1,
    (check_capacity_denies_iff c m).2.trans (check_capacity_denies_iff c m).1.symm⟩

/-- C7 witness: at `observed_count = 5`, `limit = 2` the kakad rule denies
with a non-empty reason. -/
theorem C7_rule_predicates_witness :
    (2 : Int) ≤ 5 ∧ (check_kakad_limit 5 2).allowed = false ∧
      (check_kakad_limit 5 2).reason ≠ "" :=
  ⟨by decide,
   (C7_rule_predicates.1 5 2).1.mpr (by decide),
   (C7_rule_predicates.1 5 2).2.1.mpr ((C7_rule_predicates.1 5 2).1.mpr (by decide))⟩

/-- C5 counterexample: the claim says PHASE_1 violations come in the order
kakad limit, robe limit, Thursday limit, Phase-1 total; in a PHASE_1 state
(today 2026-02-18, 11 days before 2026-03-01) where both the kakad limit
and the Phase-1 total fail, the code returns the Phase-1 total violation
*before* the kakad violation, not after it. -/
theorem C5_order_counterexample :
    validate_signup phase1OrderDB 1 7 ⟨2026, 2, 18⟩ =
      .ok [⟨false, "Phase 1 total limit reached (6/6)"⟩,
           ⟨false, "Kakad limit reached (2/2)"⟩] ∧
    ([⟨false, "Phase 1 total limit reached (6/6)"⟩,
      ⟨false, "Kakad limit reached (2/2)"⟩] : List RuleResult) ≠
      [⟨false, "Kakad limit reached (2/2)"⟩,
       ⟨false, "Phase 1 total limit reached (6/6)"⟩] := by
  refine ⟨by rfl, by decide⟩

/-- C5 amended: when the approval and shift-lookup steps pass and the phase
is PHASE_1, the violations come in the order capacity → Phase-1 total →
kakad limit (kakad shifts only) → robe limit (robe shifts only) → Thursday
limit (Thursday shifts only); and a failing approval check short-circuits,
returning the single "not approved" violation before anything else is
evaluated. -/
theorem C5_phase1_violation_order (db : DBState) (vol sid : Nat) (today : Date) :
    (∀ v s, findVolunteer db vol = some v → v.status = "approved" →
      findShift db sid = some s →
      get_signup_phase today s.date.monthStart = .PHASE_1 →
      validate_signup db vol sid today = .ok (
        denialGuard (check_capacity (get_shift_signup_count db sid) s.capacity) ++
        denialGuard (check_phase1_total (get_total_count db vol s.date.year s.date.month)) ++
        (if s.shift_type = "kakad" then
          denialGuard (check_kakad_limit (get_kakad_count db vol s.date.year s.date.month))
         else []) ++
        (if s.shift_type = "robe" then
          denialGuard (check_robe_limit (get_robe_count db vol s.date.year s.date.month))
         else []) ++
        (if s.date.weekday = 3 then
          denialGuard (check_thursday_limit (get_thursday_count db vol s.date.year s.date.month))
         else []))) ∧
    (∀ v, findVolunteer db vol = some v → v.status ≠ "approved" →
      validate_signup db vol sid today =
        .ok [⟨false, "Volunteer is not approved to sign up"⟩]) := by
  constructor
  · intro v s hv ha hs hp
    have hp' : get_signup_phase today ⟨s.date.year, s.date.month, 1⟩ = .PHASE_1 := hp
    unfold validate_signup
    rw [hv]
    simp only [ha, ne_eq, not_true_eq_false, if_false]
    rw [hs]
    simp [Date.monthStart, hp', denialGuard, List.append_assoc]
  · intro v hv ha
    unfold validate_signup
    rw [hv]
    simp [ha]

/-- C5 witness: in `phase1OrderDB` the hypotheses hold for volunteer 1 and
shift 7, and the amended order gives Phase-1 total before kakad; volunteer 2
(pending) short-circuits to the single approval violation. -/
theorem C5_phase1_violation_order_witness :
    findVolunteer phase1OrderDB 1 = some ⟨1, "approved"⟩ ∧
    findShift phase1OrderDB 7 = some ⟨7, ⟨2026, 3, 11⟩, "kakad", 10⟩ ∧
    get_signup_phase ⟨2026, 2, 18⟩ ((⟨2026, 3, 11⟩ : Date).monthStart) = .PHASE_1 ∧
    validate_signup phase1OrderDB 1 7 ⟨2026, 2, 18⟩ =
      .ok [⟨false, "Phase 1 total limit reached (6/6)"⟩,
           ⟨false, "Kakad limit reached (2/2)"⟩] ∧
    validate_signup phase1OrderDB 2 7 ⟨2026, 2, 18⟩ =
      .ok [⟨false, "Volunteer is not approved to sign up"⟩] :=
  ⟨rfl, rfl, by decide,
   ((C5_phase1_violation_order phase1OrderDB 1 7 ⟨2026, 2, 18⟩).1
      ⟨1, "approved"⟩ ⟨7, ⟨2026, 3, 11⟩, "kakad", 10⟩ rfl rfl rfl (by decide)).trans
     (congrArg Except.ok (by decide)),
   (C5_phase1_violation_order phase1OrderDB 2 7 ⟨2026, 2, 18⟩).2
      ⟨2, "pending"⟩ rfl (by decide)⟩

/-- C8: if the volunteer passes the approval gate but the shift id does not
exist, `validate_signup` fails loudly with an error (`ValueError` in the
source, `Except.error` here) rather than returning a violation list; and for
every existing shift no error is raised — the result is an (ordinary,
possibly empty) violation list. -/
theorem C8_missing_shift_error (db : DBState) (vol sid : Nat) (today : Date) :
    (∀ v, findVolunteer db vol = some v → v.status = "approved" →
      findShift db sid = none →
      validate_signup db vol sid today =
        .error ("Shift " ++ toString sid ++ " not found")) ∧
    (∀ s, findShift db sid = some s →
      ∃ l, validate_signup db vol sid today = .ok l) := by
  constructor
  · intro v hv ha hs
    unfold validate_signup
    rw [hv]
    simp only [ha, ne_eq, not_true_eq_false, if_false]
    rw [hs]
  · intro s hs
    unfold validate_signup
    cases hv : findVolunteer db vol with
    | none => exact ⟨_, rfl⟩
    | some v =>
      by_cases ha : v.status = "approved"
      · simp only [ha, ne_eq, not_true_eq_false, if_false, hs]
        split
        · exact ⟨_, rfl⟩
        · exact ⟨_, rfl⟩
      · simp only [ne_eq, ha, not_false_eq_true, if_true]
        exact ⟨_, rfl⟩

/-- C8 witness: validating against missing shift 99 raises the error, and
validating against existing shift 1 returns an ordinary violation list. -/
theorem C8_missing_shift_error_witness :
    findVolunteer shiftLookupDB 1 = some ⟨1, "approved"⟩ ∧
    findShift shiftLookupDB 99 = none ∧
    validate_signup shiftLookupDB 1 99 ⟨2026, 3, 5⟩ = .error "Shift 99 not found" ∧
    (∃ l, validate_signup shiftLookupDB 1 1 ⟨2026, 3, 5⟩ = .ok l) :=
  ⟨rfl, rfl,
   ((C8_missing_shift_error shiftLookupDB 1 99 ⟨2026, 3, 5⟩).1
      ⟨1, "approved"⟩ rfl rfl rfl).trans (congrArg Except.error (by decide)),
   (C8_missing_shift_error shiftLookupDB 1 1 ⟨2026, 3, 5⟩).2
      ⟨1, ⟨2026, 3, 2⟩, "kakad", 1⟩ rfl⟩

/-- A map that changes neither `volunteer_id` nor `shift_id` preserves the
pairwise-distinct-pairs invariant. -/
theorem uniquePairs_map_of_preserving (l : List SignupRow) (f : SignupRow → SignupRow)
    (hf : ∀ x, (f x).volunteer_id = x.volunteer_id ∧ (f x).shift_id = x.shift_id)
    (h : uniquePairs l) : uniquePairs (l.map f) := by
  refine List.Pairwise.map f ?_ h
  intro a b hab hcon
  exact hab ⟨(hf a).1.symm.trans (hcon.1.trans (hf b).1),
             (hf a).2.symm.trans (hcon.2.trans (hf b).2)⟩

/-- A member of a denial guard over a rule whose reason is non-empty iff it
denies is itself a denial with non-empty reason. -/
theorem mem_guard_denied {r x : RuleResult} (hiff : x.reason ≠ "" ↔ x.allowed = false)
    (h : r ∈ (if x.allowed then ([] : List RuleResult) else [x])) :
    r.allowed = false ∧ r.reason ≠ "" := by
  obtain ⟨hr, hx⟩ := mem_denial_guard h
  subst hr
  exact ⟨hx, hiff.mpr hx⟩

theorem check_kakad_limit_reason_iff (c m : Int) :
    (check_kakad_limit c m).reason ≠ "" ↔ (check_kakad_limit c m).allowed = false :=
  (check_kakad_limit_denies_iff c m).2.trans (check_kakad_limit_denies_iff c m).1.symm

theorem check_robe_limit_reason_iff (c m : Int) :
    (check_robe_limit c m).reason ≠ "" ↔ (check_robe_limit c m).allowed = false :=
  (check_robe_limit_denies_iff c m).2.trans (check_robe_limit_denies_iff c m).1.symm

theorem check_thursday_limit_reason_iff (c m : Int) :
    (check_thursday_limit c m).reason ≠ "" ↔ (check_thursday_limit c m).allowed = false :=
  (check_thursday_limit_denies_iff c m).2.trans (check_thursday_limit_denies_iff c m).1.symm

theorem check_phase1_total_reason_iff (c m : Int) :
    (check_phase1_total c m).reason ≠ "" ↔ (check_phase1_total c m).allowed = false :=
  (check_phase1_total_denies_iff c m).2.trans (check_phase1_total_denies_iff c m).1.symm

theorem check_running_total_reason_iff (c m : Int) :
    (check_running_total c m).reason ≠ "" ↔ (check_running_total c m).allowed = false :=
  (check_running_total_denies_iff c m).2.trans (check_running_total_denies_iff c m).1.symm

theorem check_phase2_additional_reason_iff (c m : Int) :
    (check_phase2_additional c m).reason ≠ "" ↔ (check_phase2_additional c m).allowed = false :=
  (check_phase2_additional_denies_iff c m).2.trans (check_phase2_additional_denies_iff c m).1.symm

theorem check_capacity_reason_iff (c k : Int) :
    (check_capacity c k).reason ≠ "" ↔ (check_capacity c k).allowed = false :=
  (check_capacity_denies_iff c k).2.trans (check_capacity_denies_iff c k).1.symm

/-- C9: `create_signup` and `drop_signup` preserve the at-most-one-row (and
hence at-most-one-active-signup) invariant per (volunteer, shift) pair: a
matching dropped row is reactivated in place (`dropped_at` cleared,
`signed_up_at` refreshed) with the row count unchanged, a matching active
row is returned without touching the database, and the fresh-insert branch
runs only when no row for the pair exists. -/
theorem C9_signup_pair_invariant (db : DBState) (data : SignupCreate) (sid : Nat)
    (now : Date) (h : uniquePairs db.signups) :
    uniquePairs (create_signup db data now).1.signups ∧
    uniquePairs (drop_signup db sid now).1.signups ∧
    (∀ r, db.signups.find? (fun x =>
        x.volunteer_id == data.volunteer_id && x.shift_id == data.shift_id) = some r →
      r.dropped_at ≠ none →
      (create_signup db data now).1.signups.length = db.signups.length ∧
      (create_signup db data now).2 = { r with dropped_at := none, signed_up_at := now }) ∧
    (∀ r, db.signups.find? (fun x =>
        x.volunteer_id == data.volunteer_id && x.shift_id == data.shift_id) = some r →
      r.dropped_at = none →
      (create_signup db data now).1 = db ∧ (create_signup db data now).2 = r) := by
  refine ⟨?_, ?_, ?_, ?_⟩
  · unfold create_signup
    cases hf : db.signups.find? (fun r =>
        r.volunteer_id == data.volunteer_id && r.shift_id == data.shift_id) with
    | some ex =>
      by_cases hd : ex.dropped_at = none
      · simp [hd, h]
      · simp only [ne_eq, hd, not_false_eq_true, if_true]
        exact uniquePairs_map_of_preserving _ _
          (fun x => by split <;> exact ⟨rfl, rfl⟩) h
    | none =>
      have hnone := List.find?_eq_none.mp hf
      simp only []
      unfold uniquePairs
      rw [List.pairwise_append]
      refine ⟨h, by simp, ?_⟩
      intro a ha b hb
      simp only [List.mem_singleton] at hb
      subst hb
      have hna := hnone a ha
      simp only [Bool.and_eq_true, beq_iff_eq, not_and] at hna
      intro hcon
      exact hna hcon.1 hcon.2
  · unfold drop_signup
    exact uniquePairs_map_of_preserving _ _
      (fun x => by split <;> exact ⟨rfl, rfl⟩) h
  · intro r hf hd
    simp [create_signup, hf, hd]
  · intro r hf hd
    simp [create_signup, hf, hd]

/-- C9 witness: re-signing the dropped pair (1, 1) reactivates the existing
row — same row count, `dropped_at` cleared, `signed_up_at` refreshed — and
the invariant still holds afterwards, as it does after a drop. -/
theorem C9_signup_pair_invariant_witness :
    uniquePairs rejoinDB.signups ∧
    uniquePairs (create_signup rejoinDB ⟨1, 1⟩ ⟨2026, 2, 20⟩).1.signups ∧
    uniquePairs (drop_signup rejoinDB 2 ⟨2026, 2, 21⟩).1.signups ∧
    (create_signup rejoinDB ⟨1, 1⟩ ⟨2026, 2, 20⟩).1.signups.length =
      rejoinDB.signups.length ∧
    (create_signup rejoinDB ⟨1, 1⟩ ⟨2026, 2, 20⟩).2 =
      ⟨1, 1, 1, ⟨2026, 2, 20⟩, none⟩ ∧
    (create_signup rejoinDB ⟨1, 2⟩ ⟨2026, 2, 20⟩).1 = rejoinDB :=
  ⟨by decide,
   (C9_signup_pair_invariant rejoinDB ⟨1, 1⟩ 2 ⟨2026, 2, 20⟩ (by decide)).1,
   (C9_signup_pair_invariant rejoinDB ⟨1, 1⟩ 2 ⟨2026, 2, 21⟩ (by decide)).2.1,
   ((C9_signup_pair_invariant rejoinDB ⟨1, 1⟩ 2 ⟨2026, 2, 20⟩ (by decide)).2.2.1
      ⟨1, 1, 1, ⟨2026, 2, 10⟩, some ⟨2026, 2, 12⟩⟩ rfl (by decide)).1,
   ((C9_signup_pair_invariant rejoinDB ⟨1, 1⟩ 2 ⟨2026, 2, 20⟩ (by decide)).2.2.1
      ⟨1, 1, 1, ⟨2026, 2, 10⟩, some ⟨2026, 2, 12⟩⟩ rfl (by decide)).2,
   ((C9_signup_pair_invariant rejoinDB ⟨1, 2⟩ 2 ⟨2026, 2, 20⟩ (by decide)).2.2.2
      ⟨2, 1, 2, ⟨2026, 2, 11⟩, none⟩ rfl rfl).1⟩

/-- C10: whenever `validate_signup` returns a violation list (no error),
every element of that list is a denial: `allowed = false` with a non-empty
reason; a passing `RuleResult` is never included. -/
theorem C10_violations_are_denials (db : DBState) (vol sid : Nat) (today : Date)
    (l : List RuleResult) (h : validate_signup db vol sid today = .ok l) :
    ∀ r ∈ l, r.allowed = false ∧ r.reason ≠ "" := by
  unfold validate_signup at h
  cases hfv : findVolunteer db vol with
  | none =>
    simp only [hfv] at h
    obtain rfl : l = [⟨false, "Volunteer is not approved to sign up"⟩] :=
      (Except.ok.inj h).symm
    intro r hr
    simp only [List.mem_singleton] at hr
    subst hr
    exact ⟨rfl, by decide⟩
  | some v =>
    simp only [hfv] at h
    by_cases ha : v.status = "approved"
    · simp only [ha, ne_eq, not_true_eq_false, if_false] at h
      cases hfs : findShift db sid with
      | none => simp [hfs] at h
      | some s =>
        simp only [hfs] at h
        split at h
        · obtain rfl : l = _ := (Except.ok.inj h).symm
          intro r hr
          exact mem_guard_denied (check_capacity_reason_iff _ _) hr
        · obtain rfl : l = _ := (Except.ok.inj h).symm
          intro r hr
          rcases List.mem_append.mp hr with hr | hr
          · rcases List.mem_append.mp hr with hr | hr
            · exact mem_guard_denied (check_capacity_reason_iff _ _) hr
            · split at hr
              · rcases List.mem_append.mp hr with hr | hr
                · rcases List.mem_append.mp hr with hr | hr
                  · rcases List.mem_append.mp hr with hr | hr
                    · exact mem_guard_denied (check_phase1_total_reason_iff _ _) hr
                    · split at hr
                      · exact mem_guard_denied (check_kakad_limit_reason_iff _ _) hr
                      · simp at hr
                  · split at hr
                    · exact mem_guard_denied (check_robe_limit_reason_iff _ _) hr
                    · simp at hr
                · split at hr
                  · exact mem_guard_denied (check_thursday_limit_reason_iff _ _) hr
                  · simp at hr
              · simp at hr
          · split at hr
            · rcases List.mem_append.mp hr with hr | hr
              · exact mem_guard_denied (check_phase2_additional_reason_iff _ _) hr
              · exact mem_guard_denied (check_running_total_reason_iff _ _) hr
            · simp at hr
    · simp only [ne_eq, ha, not_false_eq_true, if_true] at h
      obtain rfl : l = [⟨false, "Volunteer is not approved to sign up"⟩] :=
        (Except.ok.inj h).symm
      intro r hr
      simp only [List.mem_singleton] at hr
      subst hr
      exact ⟨rfl, by decide⟩

/-- C10 witness: the one violation returned for a rejected volunteer is a
denial with a non-empty reason. -/
theorem C10_violations_are_denials_witness :
    validate_signup rejectedVolDB 1 1 ⟨2026, 3, 5⟩ =
      .ok [⟨false, "Volunteer is not approved to sign up"⟩] ∧
    (false = false ∧ ("Volunteer is not approved to sign up" : String) ≠ "") :=
  ⟨rfl,
   C10_violations_are_denials rejectedVolDB 1 1 ⟨2026, 3, 5⟩
     [⟨false, "Volunteer is not approved to sign up"⟩] rfl
     ⟨false, "Volunteer is not approved to sign up"⟩ (by simp)⟩

end CcVol
